import Mathlib

/-!
Shallow embedding of the campaign-execution and plan-quota subsystem of a
multi-tenant WhatsApp SaaS backend.

Sources embedded here:
- `src/middleware/planAccess.ts` : `checkUsageLimit` middleware, `incrementUsage`.
- `src/routes/retarget.ts` (campaign router part) : campaign creation (POST /),
  update (PUT /:id), start (POST /:id/start), pause (POST /:id/pause) and the
  background dispatch worker `processCampaignMessages`.
- `src/routes/whatsapp.ts` : `handleMessageStatus`, the webhook status-ingestion
  handler.

Database state (Prisma models `User`, `Campaign`, `CampaignContact`, `Message`)
is modelled as explicit Lean structures; each Express handler becomes a function
from state to a pair of an optional typed error (the non-2xx response) and the
resulting state. Handlers that answer with an error without touching the
database return the input state unchanged.
-/

/-! ## Quota ledger (`src/middleware/planAccess.ts`) -/

/-- A subscription plan: its `limits` JSON object, a map from resource name to
integer cap (`-1` means unlimited). Modelled as an association list. -/
structure Plan where
  limits : List (String × Int)
deriving DecidableEq, Repr

/-- The tenant fields read by the quota middleware: the optional plan and the
`quotaUsed` JSON object (resource name -> consumed count). -/
structure User where
  plan : Option Plan
  quotaUsed : List (String × Int)
deriving DecidableEq, Repr

/-- Outcome of the `checkUsageLimit` middleware: pass (calls `next()`), the
403 `No active plan` response, or the 403 `Usage limit exceeded` response
carrying the machine-readable `resource`, `limit` and `used` fields. -/
inductive QuotaCheckResult where
  | pass : QuotaCheckResult
  | noActivePlan : QuotaCheckResult
  | usageLimitExceeded (resource : String) (limit : Int) (used : Int) : QuotaCheckResult
deriving DecidableEq, Repr

/-- `quotaUsed[resource] || 0` : the recorded usage, defaulting to 0 when the
key is absent. -/
def usedOf (u : User) (resource : String) : Int :=
  (List.lookup resource u.quotaUsed).getD 0

/-- `checkUsageLimit(resource)` from `src/middleware/planAccess.ts` lines 59-94.
Reads `user.plan.limits[resource]` and `user.quotaUsed[resource] || 0` and
rejects only when `limit !== -1 && used >= limit`. When `resource` has no entry
in the limits object, the JS value `limit` is `undefined`; `undefined !== -1`
holds but `used >= undefined` is always false, so the guard never fires and the
middleware passes: an unlisted resource behaves as unlimited. The middleware
performs no database write. -/
def checkUsageLimit (u : User) (resource : String) : QuotaCheckResult :=
  match u.plan with
  | none => .noActivePlan
  | some p =>
      let used := usedOf u resource
      match List.lookup resource p.limits with
      | none => .pass
      | some limit =>
          if limit ≠ -1 ∧ used ≥ limit then .usageLimitExceeded resource limit used
          else .pass

/-- Replace (or insert) the entry for key `k` in an association list. -/
def setUsage : List (String × Int) → String → Int → List (String × Int)
  | [], k, v => [(k, v)]
  | (k1, v1) :: rest, k, v =>
      if k1 = k then (k, v) :: rest else (k1, v1) :: setUsage rest k v

/-- `incrementUsage(userId, resource, amount)` from
`src/middleware/planAccess.ts` lines 96-115:
`quotaUsed[resource] = (quotaUsed[resource] || 0) + amount` followed by an
update of the user row. -/
def incrementUsage (u : User) (resource : String) (amount : Int) : User :=
  { u with quotaUsed := setUsage u.quotaUsed resource (usedOf u resource + amount) }

/-- Express middleware semantics of `checkUsageLimit`: when the check rejects,
the response is sent and `next()` is never called, so the guarded handler
(which is what would mutate usage, e.g. via `incrementUsage`) does not run and
the stored state is unchanged. When the check passes, the handler runs. -/
def applyQuotaGuard (u : User) (resource : String) (handler : User → User) :
    QuotaCheckResult × User :=
  match checkUsageLimit u resource with
  | .pass => (.pass, handler u)
  | r => (r, u)

/-! ## Campaign data model (Prisma models in `prisma/migrations/...`) -/

/-- `CampaignStatus` enum. -/
inductive CampaignStatus where
  | DRAFT | SCHEDULED | RUNNING | PAUSED | COMPLETED | FAILED
deriving DecidableEq, Repr

/-- `CampaignContactStatus` enum. -/
inductive CCStatus where
  | PENDING | SENT | DELIVERED | READ | FAILED
deriving DecidableEq, Repr

/-- `MessageStatus` enum. -/
inductive MsgStatus where
  | SENT | DELIVERED | READ | FAILED
deriving DecidableEq, Repr

/-- The `Campaign` row fields manipulated by the campaign router. Timestamps
are modelled as natural-number instants. -/
structure Campaign where
  name : String
  description : Option String
  status : CampaignStatus
  scheduledAt : Option Nat
  startedAt : Option Nat
  completedAt : Option Nat
  totalContacts : Nat
  sentCount : Nat
  deliveredCount : Nat
  readCount : Nat
  failedCount : Nat
deriving DecidableEq, Repr

/-- A `CampaignContact` row (unique per (campaign, contact); contacts are
identified by a natural number). -/
structure CampaignContact where
  contactId : Nat
  status : CCStatus
  sentAt : Option Nat
  failedAt : Option Nat
  errorMessage : Option String
deriving DecidableEq, Repr

/-- The `Message` row fields manipulated by the dispatch worker and by the
webhook status-ingestion handler. `whatsappMessageId` is the provider message
id; the worker's `prisma.message.create` does not set it, so it is `none` for
campaign messages. -/
structure Message where
  contactId : Nat
  status : MsgStatus
  content : String
  whatsappMessageId : Option String
  deliveredAt : Option Nat
  readAt : Option Nat
  errorMessage : Option String
deriving DecidableEq, Repr

/-- Database state for one campaign: its `Campaign` row, its `CampaignContact`
rows (in creation order), the `Message` rows created for it, and the name of
its template if any (`campaign.template?.name`). -/
structure CState where
  campaign : Campaign
  rows : List CampaignContact
  messages : List Message
  templateName : Option String
deriving DecidableEq, Repr

/-- Typed campaign errors (the 400 responses of the campaign router). -/
inductive CampaignError where
  /-- `Campaign cannot be started` (start outside DRAFT/SCHEDULED). -/
  | invalidTransition
  /-- `Cannot edit running or completed campaign`. -/
  | campaignLocked
  /-- `Campaign is not running` (pause outside RUNNING). -/
  | notRunning
deriving DecidableEq, Repr

/-- A fresh `CampaignContact` row as inserted by `createMany` at campaign
creation: status `PENDING`, no timestamps. -/
def mkRow (cid : Nat) : CampaignContact :=
  { contactId := cid, status := .PENDING, sentAt := none, failedAt := none,
    errorMessage := none }

/-- Campaign creation (`POST /`, `src/routes/retarget.ts` campaign router,
lines 343-423): status `SCHEDULED` when a `scheduledAt` is supplied, else
`DRAFT`; `totalContacts` is the number of (verified, distinct) contacts; one
`PENDING` `CampaignContact` row per contact. -/
def createCampaign (contactIds : List Nat) (sched : Option Nat) (nm : String)
    (tmpl : Option String) : CState :=
  { campaign :=
      { name := nm, description := none,
        status := if sched.isSome then .SCHEDULED else .DRAFT,
        scheduledAt := sched, startedAt := none, completedAt := none,
        totalContacts := contactIds.length,
        sentCount := 0, deliveredCount := 0, readCount := 0, failedCount := 0 },
    rows := contactIds.map mkRow,
    messages := [],
    templateName := tmpl }

/-! ## Dispatch worker (`processCampaignMessages`, lines 620-713) -/

/-- The message row created by the worker for one contact:
`direction OUTBOUND, type TEMPLATE, content campaign.template?.name ||
'Campaign message', status 'SENT'`; no `whatsappMessageId` is set. -/
def mkCampaignMessage (tmpl : Option String) (cid : Nat) : Message :=
  { contactId := cid, status := .SENT, content := tmpl.getD "Campaign message",
    whatsappMessageId := none, deliveredAt := none, readAt := none,
    errorMessage := none }

/-- The per-row update performed in one loop iteration, keyed by the unique
`(campaignId, contactId)` pair: on success status `SENT` with `sentAt`, on the
catch path status `FAILED` with `failedAt` and `errorMessage`. -/
def step1 (b : CampaignContact) (ok : Bool) (now : Nat) (r : CampaignContact) :
    CampaignContact :=
  if r.contactId = b.contactId then
    if ok then { r with status := .SENT, sentAt := some now }
    else { r with status := .FAILED, failedAt := some now,
                  errorMessage := some "Failed to send message" }
  else r

/-- One iteration of the worker loop for batch row `b`. `ok` is the outcome of
the iteration's try/catch: `true` means the message record was created and the
row and counter updated (try branch), `false` means the send failed and the
catch branch ran (row `FAILED`, `failedCount` incremented, no message row). -/
def processOne (b : CampaignContact) (ok : Bool) (now : Nat) (st : CState) :
    CState :=
  { st with
    messages :=
      if ok then st.messages ++ [mkCampaignMessage st.templateName b.contactId]
      else st.messages,
    rows := st.rows.map (step1 b ok now),
    campaign :=
      if ok then { st.campaign with sentCount := st.campaign.sentCount + 1 }
      else { st.campaign with failedCount := st.campaign.failedCount + 1 } }

/-- The worker loop over the batch, threading the iteration index into the
per-iteration outcome oracle `f`. -/
def runBatch (f : Nat → Bool) (now : Nat) : Nat → List CampaignContact → CState → CState
  | _, [], st => st
  | i, b :: bs, st => runBatch f now (i + 1) bs (processOne b (f i) now st)

/-- `processCampaignMessages(campaign)` (`src/routes/retarget.ts` lines
620-713): iterates `campaign.contacts.slice(0, 5)` — the first five
`CampaignContact` rows, with no filter on their status — then counts the rows
still `PENDING` and, when none remain, marks the campaign `COMPLETED` with
`completedAt`. -/
def processCampaignMessages (f : Nat → Bool) (now : Nat) (st : CState) : CState :=
  let st1 := runBatch f now 0 (st.rows.take 5) st
  if st1.rows.countP (fun r => r.status == CCStatus.PENDING) = 0 then
    { st1 with campaign :=
        { st1.campaign with status := .COMPLETED, completedAt := some now } }
  else st1

/-! ## Campaign router operations -/

/-- The campaign update performed by the start route before launching the
worker: status `RUNNING`, `startedAt` set. -/
def setRunning (now : Nat) (st : CState) : CState :=
  { st with campaign :=
      { st.campaign with status := .RUNNING, startedAt := some now } }

/-- `POST /:id/start` (lines 467-511): rejected with 400 unless the status is
`DRAFT` or `SCHEDULED`; otherwise the campaign is set `RUNNING` with
`startedAt` and the dispatch worker runs over the loaded contact rows. -/
def startCampaign (f : Nat → Bool) (now : Nat) (st : CState) :
    Option CampaignError × CState :=
  if st.campaign.status ≠ .DRAFT ∧ st.campaign.status ≠ .SCHEDULED then
    (some .invalidTransition, st)
  else
    (none, processCampaignMessages f now (setRunning now st))

/-- `POST /:id/pause` (lines 514-543): rejected with 400 unless `RUNNING`. -/
def pauseCampaign (st : CState) : Option CampaignError × CState :=
  if st.campaign.status ≠ .RUNNING then (some .notRunning, st)
  else (none, { st with campaign := { st.campaign with status := .PAUSED } })

/-- The `PUT /:id` request body: absent fields are `none` (Prisma skips
`undefined` fields for `name`/`description`; `scheduledAt` is always written,
as `null` when absent). -/
structure UpdateRequest where
  name : Option String
  description : Option String
  scheduledAt : Option Nat
deriving DecidableEq, Repr

/-- `PUT /:id` (lines 426-464): rejected with 400 only when the status is
`RUNNING` or `COMPLETED`; otherwise updates name/description, overwrites
`scheduledAt`, and resets the status to `SCHEDULED` when a `scheduledAt` is
supplied, else to `DRAFT`. -/
def updateCampaign (req : UpdateRequest) (st : CState) :
    Option CampaignError × CState :=
  if st.campaign.status = .RUNNING ∨ st.campaign.status = .COMPLETED then
    (some .campaignLocked, st)
  else
    (none, { st with campaign :=
      { st.campaign with
        name := req.name.getD st.campaign.name,
        description :=
          match req.description with
          | some d => some d
          | none => st.campaign.description,
        scheduledAt := req.scheduledAt,
        status := if req.scheduledAt.isSome then .SCHEDULED else .DRAFT } })

/-! ## Status ingestion (`handleMessageStatus`, `src/routes/whatsapp.ts`
lines 329-357) -/

/-- A webhook status callback: provider message id, status string, unix
timestamp, optional `errors[0].title`. -/
structure StatusCallback where
  id : String
  status : String
  timestamp : Nat
  errorTitle : Option String
deriving DecidableEq, Repr

/-- The `updateData` applied by `handleMessageStatus` to a matching message
row: built by the `switch` on the callback status string and applied
unconditionally — there is no compare-and-set against the current status
(an unknown status string leaves `updateData` empty, changing nothing). -/
def applyStatusUpdate (cb : StatusCallback) (m : Message) : Message :=
  if cb.status = "delivered" then
    { m with status := .DELIVERED, deliveredAt := some cb.timestamp }
  else if cb.status = "read" then
    { m with status := .READ, readAt := some cb.timestamp }
  else if cb.status = "failed" then
    { m with status := .FAILED,
             errorMessage := some (cb.errorTitle.getD "Message failed") }
  else m

/-- `handleMessageStatus(status)`: `prisma.message.updateMany({ where:
{ whatsappMessageId: id }, data: updateData })` — every message whose provider
id equals the callback id receives the update; rows with a `null` provider id
never match. -/
def handleMessageStatus (cb : StatusCallback) (msgs : List Message) : List Message :=
  msgs.map (fun m =>
    if m.whatsappMessageId = some cb.id then applyStatusUpdate cb m else m)

/-! ## Operation sequences -/

/-- An exposed operation on a campaign's state: a start (with its worker
outcome oracle and clock), a pause, an edit, or the ingestion of one status
callback over the message table. -/
inductive Op where
  | start (f : Nat → Bool) (now : Nat) : Op
  | pause : Op
  | update (req : UpdateRequest) : Op
  | ingest (cb : StatusCallback) : Op

/-- Apply one operation; a handler that answers with an error leaves the
state unchanged (the second component of the handler's result). -/
def applyOp (op : Op) (st : CState) : CState :=
  match op with
  | .start f now => (startCampaign f now st).2
  | .pause => (pauseCampaign st).2
  | .update req => (updateCampaign req st).2
  | .ingest cb => { st with messages := handleMessageStatus cb st.messages }

/-- Apply a sequence of operations, left to right. -/
def applyOps (st : CState) (ops : List Op) : CState :=
  ops.foldl (fun s op => applyOp op s) st

/-- Recognizer for `start` operations. -/
def isStart : Op → Bool
  | .start _ _ => true
  | .pause => false
  | .update _ => false
  | .ingest _ => false

/-- Number of `start` operations in a sequence. -/
def countStarts : List Op → Nat
  | [] => 0
  | op :: rest => (if isStart op then 1 else 0) + countStarts rest

/-- The aggregate-counter invariant claimed by the spec:
`sent + failed ≤ total`, `delivered ≤ sent`, `read ≤ delivered`. -/
def CountersInv (st : CState) : Prop :=
  st.campaign.sentCount + st.campaign.failedCount ≤ st.campaign.totalContacts
  ∧ st.campaign.deliveredCount ≤ st.campaign.sentCount
  ∧ st.campaign.readCount ≤ st.campaign.deliveredCount

instance (st : CState) : Decidable (CountersInv st) := by
  unfold CountersInv; infer_instance

/-- A freshly created campaign state: all counters zero and one contact row
per counted contact. -/
def Fresh (st : CState) : Prop :=
  st.campaign.sentCount = 0 ∧ st.campaign.failedCount = 0
  ∧ st.campaign.deliveredCount = 0 ∧ st.campaign.readCount = 0
  ∧ st.rows.length = st.campaign.totalContacts

instance (st : CState) : Decidable (Fresh st) := by
  unfold Fresh; infer_instance

/-- The cumulative effect of one worker batch on a single contact row: the
composition of the per-iteration updates `step1` over the batch, threading the
iteration index. `runBatch` acts on the row table as `List.map` of this
function (`runBatch_rows`). -/
def updF (f : Nat → Bool) (now : Nat) : Nat → List CampaignContact → CampaignContact → CampaignContact
  | _, [], r => r
  | i, b :: bs, r => updF f now (i + 1) bs (step1 b (f i) now r)

/-! ## Concrete fixtures used in counterexamples and witnesses -/

/-- A tenant whose plan caps `messages` at 5 and whose usage is already 5. -/
def uAtLimit : User :=
  { plan := some { limits := [("messages", 5)] },
    quotaUsed := [("messages", 5)] }

/-- A tenant whose plan limits object has no `messages` entry, with a huge
recorded `messages` usage. -/
def uNoEntry : User :=
  { plan := some { limits := [("contacts", 10)] },
    quotaUsed := [("messages", 999999)] }

/-- An always-succeeding per-iteration outcome oracle. -/
def allOk : Nat → Bool := fun _ => true

/-- A two-contact campaign state with its status field overridden, used to
probe the router guards from each lifecycle state. -/
def stWith (s : CampaignStatus) : CState :=
  let st := createCampaign [1, 2] none "c" none
  { st with campaign := { st.campaign with status := s } }

/-- A message row already recorded as FAILED for provider id `w1`. -/
def msgFailed : Message :=
  { contactId := 1, status := .FAILED, content := "x",
    whatsappMessageId := some "w1", deliveredAt := none, readAt := none,
    errorMessage := some "Message failed" }

/-- A message row already recorded as DELIVERED for provider id `w2`. -/
def msgDelivered : Message :=
  { contactId := 2, status := .DELIVERED, content := "y",
    whatsappMessageId := some "w2", deliveredAt := some 3, readAt := none,
    errorMessage := none }

/-- A message row still SENT (no delivery recorded) for provider id `w3`. -/
def msgSent : Message :=
  { contactId := 3, status := .SENT, content := "z",
    whatsappMessageId := some "w3", deliveredAt := none, readAt := none,
    errorMessage := none }

/-- A `delivered` callback for provider id `w1` at time 10. -/
def cbDelivered : StatusCallback :=
  { id := "w1", status := "delivered", timestamp := 10, errorTitle := none }

/-- A `failed` callback for provider id `w2` at time 11. -/
def cbFailed : StatusCallback :=
  { id := "w2", status := "failed", timestamp := 11, errorTitle := none }

/-- A `read` callback for provider id `w3` at time 7. -/
def cbRead : StatusCallback :=
  { id := "w3", status := "read", timestamp := 7, errorTitle := none }

/-- An edit request that only renames the campaign. -/
def reqName : UpdateRequest :=
  { name := some "n2", description := none, scheduledAt := none }

/-- The re-entrant trace start, pause, edit, start over a six-contact
campaign. -/
def restartTrace : List Op :=
  [Op.start allOk 1, Op.pause,
   Op.update { name := none, description := none, scheduledAt := none },
   Op.start allOk 2]

/-! ## Theorems -/

/-- C1: with an active plan whose limit for `resource` is a finite `L` (not
`-1`) and recorded usage at least `L`, the usage-limit check rejects with an
`UsageLimitExceeded` error carrying `resource`, `limit` and `used`, and the
tenant's recorded usage is unchanged (the guarded handler never runs, so no
partial increment happens). -/
theorem checkUsageLimit_rejects_at_limit (u : User) (p : Plan) (resource : String)
    (L : Int) (handler : User → User)
    (hp : u.plan = some p) (hl : List.lookup resource p.limits = some L)
    (hne : L ≠ -1) (hge : usedOf u resource ≥ L) :
    applyQuotaGuard u resource handler
      = (.usageLimitExceeded resource L (usedOf u resource), u) := by
  unfold applyQuotaGuard checkUsageLimit
  rw [hp]
  simp only [hl]
  rw [if_pos ⟨hne, hge⟩]

/-- Witness for C1: plan limit `messages=5`, usage 5, guarded by a handler
that would increment usage by 1: the check rejects with limit 5, used 5, and
usage stays exactly 5. -/
theorem checkUsageLimit_rejects_at_limit_witness :
    applyQuotaGuard uAtLimit "messages" (fun v => incrementUsage v "messages" 1)
      = (.usageLimitExceeded "messages" 5 5, uAtLimit)
    ∧ usedOf uAtLimit "messages" = 5 := by
  refine ⟨?_, by decide⟩
  have h := checkUsageLimit_rejects_at_limit uAtLimit
    { limits := [("messages", 5)] } "messages" 5
    (fun v => incrementUsage v "messages" 1) rfl (by decide) (by decide) (by decide)
  have hu : usedOf uAtLimit "messages" = 5 := by decide
  rw [hu] at h
  exact h

/-- C10: with an active plan whose limits object has no entry for `resource`,
the usage-limit check passes regardless of the recorded usage (in the source,
`used >= undefined` is false, so the rejection guard never fires). -/
theorem missing_limit_is_unlimited (u : User) (p : Plan) (resource : String)
    (hp : u.plan = some p) (hl : List.lookup resource p.limits = none) :
    checkUsageLimit u resource = .pass := by
  unfold checkUsageLimit
  rw [hp]
  simp only [hl]

/-- Witness for C10: a plan listing only `contacts` passes the `messages`
check even with usage 999999. -/
theorem missing_limit_is_unlimited_witness :
    checkUsageLimit uNoEntry "messages" = .pass :=
  missing_limit_is_unlimited uNoEntry { limits := [("contacts", 10)] }
    "messages" rfl (by decide)

/-- C3 counterexample: the claim that FAILED is terminal (and DELIVERED not
overwritten by a later `failed`) is false at a concrete input: a `delivered`
callback arriving after FAILED rewrites the message to DELIVERED, and a
`failed` callback arriving after DELIVERED rewrites it to FAILED. -/
theorem delivered_overwrites_failed_cex :
    (handleMessageStatus cbDelivered [msgFailed]).map Message.status
        = [MsgStatus.DELIVERED]
    ∧ (handleMessageStatus cbFailed [msgDelivered]).map Message.status
        = [MsgStatus.FAILED] := by
  decide

/-- C3 amended: `handleMessageStatus` applies the callback unconditionally to
every message matching the provider id — a `delivered` callback after FAILED
sets the status to DELIVERED, and a `failed` callback after DELIVERED sets it
to FAILED; no status is terminal. -/
theorem status_ingestion_blind_overwrite (m1 m2 : Message)
    (cb1 cb2 : StatusCallback) (r1 r2 : List Message)
    (h1 : m1.whatsappMessageId = some cb1.id) (hf : m1.status = .FAILED)
    (hd : cb1.status = "delivered")
    (h2 : m2.whatsappMessageId = some cb2.id) (hD : m2.status = .DELIVERED)
    (hc : cb2.status = "failed") :
    (handleMessageStatus cb1 (m1 :: r1)).head?.map Message.status
        = some .DELIVERED
    ∧ (handleMessageStatus cb2 (m2 :: r2)).head?.map Message.status
        = some .FAILED := by
  constructor
  · simp [handleMessageStatus, applyStatusUpdate, h1, hd]
  · simp [handleMessageStatus, applyStatusUpdate, h2, hc]

/-- Witness for C3 amended at the concrete FAILED/DELIVERED fixtures. -/
theorem status_ingestion_blind_overwrite_witness :
    (handleMessageStatus cbDelivered [msgFailed]).head?.map Message.status
        = some MsgStatus.DELIVERED
    ∧ (handleMessageStatus cbFailed [msgDelivered]).head?.map Message.status
        = some MsgStatus.FAILED :=
  status_ingestion_blind_overwrite msgFailed msgDelivered cbDelivered cbFailed
    [] [] (by decide) (by decide) (by decide) (by decide) (by decide) (by decide)

/-- C4 counterexample: a `read` callback for a message with no recorded
delivery sets `readAt` to the callback timestamp but leaves `deliveredAt`
unset, contradicting the claim that both fields are set. -/
theorem read_does_not_backfill_deliveredAt_cex :
    (handleMessageStatus cbRead [msgSent]).map
        (fun m => (m.status, m.deliveredAt, m.readAt))
      = [(MsgStatus.READ, none, some 7)] := by
  decide

/-- C4 amended: a `read` callback sets the message status to READ and `readAt`
to the callback timestamp, leaving `deliveredAt` exactly as it was (no
backfill). -/
theorem read_callback_sets_readAt_only (m : Message) (cb : StatusCallback)
    (rest : List Message)
    (h1 : m.whatsappMessageId = some cb.id) (h2 : cb.status = "read") :
    handleMessageStatus cb (m :: rest)
      = { m with status := .READ, readAt := some cb.timestamp }
        :: handleMessageStatus cb rest := by
  simp [handleMessageStatus, applyStatusUpdate, h1, h2]

/-- Witness for C4 amended at the concrete SENT fixture: `deliveredAt` stays
`none`. -/
theorem read_callback_sets_readAt_only_witness :
    handleMessageStatus cbRead [msgSent]
      = [{ msgSent with status := .READ, readAt := some 7 }] :=
  read_callback_sets_readAt_only msgSent cbRead [] (by decide) (by decide)

/-! ### Helper lemmas about the dispatch worker -/

theorem processOne_campaign_status (b : CampaignContact) (ok : Bool) (now : Nat)
    (st : CState) : (processOne b ok now st).campaign.status = st.campaign.status := by
  cases ok <;> rfl

theorem processOne_campaign_startedAt (b : CampaignContact) (ok : Bool) (now : Nat)
    (st : CState) :
    (processOne b ok now st).campaign.startedAt = st.campaign.startedAt := by
  cases ok <;> rfl

theorem runBatch_campaign_status (f : Nat → Bool) (now : Nat) :
    ∀ (l : List CampaignContact) (i : Nat) (st : CState),
    (runBatch f now i l st).campaign.status = st.campaign.status := by
  intro l
  induction l with
  | nil => intro i st; rfl
  | cons b bs ih =>
      intro i st
      rw [runBatch, ih, processOne_campaign_status]

theorem runBatch_campaign_startedAt (f : Nat → Bool) (now : Nat) :
    ∀ (l : List CampaignContact) (i : Nat) (st : CState),
    (runBatch f now i l st).campaign.startedAt = st.campaign.startedAt := by
  intro l
  induction l with
  | nil => intro i st; rfl
  | cons b bs ih =>
      intro i st
      rw [runBatch, ih, processOne_campaign_startedAt]

theorem procMsgs_campaign_startedAt (f : Nat → Bool) (now : Nat) (st : CState) :
    (processCampaignMessages f now st).campaign.startedAt
      = st.campaign.startedAt := by
  simp only [processCampaignMessages]
  split
  · exact runBatch_campaign_startedAt f now _ 0 st
  · exact runBatch_campaign_startedAt f now _ 0 st

theorem procMsgs_campaign_status (f : Nat → Bool) (now : Nat) (st : CState) :
    (processCampaignMessages f now st).campaign.status = st.campaign.status
    ∨ (processCampaignMessages f now st).campaign.status = .COMPLETED := by
  simp only [processCampaignMessages]
  split
  · right; rfl
  · left; exact runBatch_campaign_status f now _ 0 st

/-! ### Campaign state machine claims -/

/-- C6 counterexample: FAILED is not terminal — editing a FAILED campaign
succeeds and resets its status to DRAFT. -/
theorem failed_campaign_editable_cex :
    (updateCampaign reqName (stWith .FAILED)).1 = none
    ∧ (updateCampaign reqName (stWith .FAILED)).2.campaign.status = .DRAFT := by
  decide

/-- C6 amended: COMPLETED is terminal for start, pause and update (each fails
and leaves the state unchanged); a FAILED campaign is likewise rejected by
start and pause, but update succeeds on it and resets its status to SCHEDULED
or DRAFT according to the request's `scheduledAt`. -/
theorem completed_terminal_failed_editable (st : CState) (f : Nat → Bool)
    (now : Nat) (req : UpdateRequest) :
    (st.campaign.status = .COMPLETED →
        startCampaign f now st = (some .invalidTransition, st)
        ∧ pauseCampaign st = (some .notRunning, st)
        ∧ updateCampaign req st = (some .campaignLocked, st))
    ∧ (st.campaign.status = .FAILED →
        startCampaign f now st = (some .invalidTransition, st)
        ∧ pauseCampaign st = (some .notRunning, st)
        ∧ (updateCampaign req st).1 = none
        ∧ (updateCampaign req st).2.campaign.status
            = (if req.scheduledAt.isSome then .SCHEDULED else .DRAFT)) := by
  constructor
  · intro h
    have hg : st.campaign.status ≠ .DRAFT ∧ st.campaign.status ≠ .SCHEDULED := by
      rw [h]; exact ⟨by decide, by decide⟩
    have hnr : st.campaign.status ≠ .RUNNING := by rw [h]; decide
    have hrc : st.campaign.status = .RUNNING ∨ st.campaign.status = .COMPLETED :=
      Or.inr h
    refine ⟨?_, ?_, ?_⟩
    · unfold startCampaign; rw [if_pos hg]
    · unfold pauseCampaign; rw [if_pos hnr]
    · unfold updateCampaign; rw [if_pos hrc]
  · intro h
    have hg : st.campaign.status ≠ .DRAFT ∧ st.campaign.status ≠ .SCHEDULED := by
      rw [h]; exact ⟨by decide, by decide⟩
    have hnr : st.campaign.status ≠ .RUNNING := by rw [h]; decide
    have hnrc : ¬(st.campaign.status = .RUNNING ∨ st.campaign.status = .COMPLETED) := by
      rw [h]; decide
    refine ⟨?_, ?_, ?_, ?_⟩
    · unfold startCampaign; rw [if_pos hg]
    · unfold pauseCampaign; rw [if_pos hnr]
    · unfold updateCampaign; rw [if_neg hnrc]
    · unfold updateCampaign; rw [if_neg hnrc]

/-- Witness for C6 amended: a COMPLETED campaign rejects start, pause and
update; a FAILED campaign accepts the edit. -/
theorem completed_terminal_failed_editable_witness :
    startCampaign allOk 0 (stWith .COMPLETED)
        = (some .invalidTransition, stWith .COMPLETED)
    ∧ updateCampaign reqName (stWith .COMPLETED)
        = (some .campaignLocked, stWith .COMPLETED)
    ∧ (updateCampaign reqName (stWith .FAILED)).1 = none := by
  refine ⟨?_, ?_, ?_⟩
  · exact ((completed_terminal_failed_editable (stWith .COMPLETED) allOk 0
      reqName).1 (by decide)).1
  · exact ((completed_terminal_failed_editable (stWith .COMPLETED) allOk 0
      reqName).1 (by decide)).2.2
  · exact ((completed_terminal_failed_editable (stWith .FAILED) allOk 0
      reqName).2 (by decide)).2.2.1

/-- C7: the start operation succeeds exactly when the campaign is DRAFT or
SCHEDULED; in any other status (including RUNNING and COMPLETED, so in
particular on a second start) it fails with `invalidTransition` and leaves the
state unchanged; on success the campaign was transitioned to RUNNING with
`startedAt` set (ending RUNNING, or COMPLETED when the worker finds no
PENDING row left). -/
theorem start_only_from_draft_or_scheduled (st : CState) (f : Nat → Bool)
    (now : Nat) :
    ((startCampaign f now st).1 = none
        ↔ (st.campaign.status = .DRAFT ∨ st.campaign.status = .SCHEDULED))
    ∧ (¬(st.campaign.status = .DRAFT ∨ st.campaign.status = .SCHEDULED) →
        startCampaign f now st = (some .invalidTransition, st))
    ∧ ((startCampaign f now st).1 = none →
        (startCampaign f now st).2.campaign.startedAt = some now
        ∧ ((startCampaign f now st).2.campaign.status = .RUNNING
            ∨ (startCampaign f now st).2.campaign.status = .COMPLETED)) := by
  by_cases h : st.campaign.status = .DRAFT ∨ st.campaign.status = .SCHEDULED
  · have hg : ¬(st.campaign.status ≠ .DRAFT ∧ st.campaign.status ≠ .SCHEDULED) := by
      rcases h with h | h <;> rw [h] <;> decide
    refine ⟨?_, ?_, ?_⟩
    · unfold startCampaign; rw [if_neg hg]; simpa using h
    · intro hc; exact absurd h hc
    · intro _
      unfold startCampaign
      rw [if_neg hg]
      constructor
      · rw [procMsgs_campaign_startedAt]; rfl
      · have hst := procMsgs_campaign_status f now (setRunning now st)
        rcases hst with hst | hst
        · left; exact hst
        · right; exact hst
  · have hg : st.campaign.status ≠ .DRAFT ∧ st.campaign.status ≠ .SCHEDULED := by
      push_neg at h; exact h
    refine ⟨?_, ?_, ?_⟩
    · unfold startCampaign; rw [if_pos hg]; simpa using h
    · intro _; unfold startCampaign; rw [if_pos hg]
    · intro hc
      unfold startCampaign at hc
      rw [if_pos hg] at hc
      simp at hc

/-- Witness for C7: a DRAFT campaign starts; starting the RUNNING campaign a
second time fails with `invalidTransition` and changes nothing. -/
theorem start_only_from_draft_or_scheduled_witness :
    (startCampaign allOk 5 (stWith .DRAFT)).1 = none
    ∧ startCampaign allOk 5 (stWith .RUNNING)
        = (some .invalidTransition, stWith .RUNNING) := by
  constructor
  · exact (start_only_from_draft_or_scheduled (stWith .DRAFT) allOk 5).1.mpr
      (Or.inl (by decide))
  · exact (start_only_from_draft_or_scheduled (stWith .RUNNING) allOk 5).2.1
      (by decide)

/-- C8 counterexample: editing is not restricted to DRAFT/SCHEDULED — an edit
of a PAUSED campaign succeeds. -/
theorem paused_campaign_editable_cex :
    (stWith .PAUSED).campaign.status = .PAUSED
    ∧ (updateCampaign reqName (stWith .PAUSED)).1 = none := by
  decide

/-- C8 amended: the edit is rejected with `campaignLocked` exactly when the
campaign is RUNNING or COMPLETED, in which case the state is unchanged; in
every other status (DRAFT, SCHEDULED, PAUSED, FAILED) the edit succeeds. -/
theorem edit_locked_iff_running_or_completed (st : CState) (req : UpdateRequest) :
    ((updateCampaign req st).1 = some .campaignLocked
        ↔ (st.campaign.status = .RUNNING ∨ st.campaign.status = .COMPLETED))
    ∧ ((st.campaign.status = .RUNNING ∨ st.campaign.status = .COMPLETED) →
        (updateCampaign req st).2 = st)
    ∧ (¬(st.campaign.status = .RUNNING ∨ st.campaign.status = .COMPLETED) →
        (updateCampaign req st).1 = none) := by
  by_cases h : st.campaign.status = .RUNNING ∨ st.campaign.status = .COMPLETED
  · refine ⟨?_, ?_, ?_⟩
    · unfold updateCampaign; rw [if_pos h]; simpa using h
    · intro _; unfold updateCampaign; rw [if_pos h]
    · intro hc; exact absurd h hc
  · refine ⟨?_, ?_, ?_⟩
    · unfold updateCampaign; rw [if_neg h]; simpa using h
    · intro hc; exact absurd hc h
    · intro _; unfold updateCampaign; rw [if_neg h]

/-- Witness for C8 amended: RUNNING rejects the edit unchanged; PAUSED
accepts it. -/
theorem edit_locked_iff_running_or_completed_witness :
    (updateCampaign reqName (stWith .RUNNING)).1 = some .campaignLocked
    ∧ (updateCampaign reqName (stWith .RUNNING)).2 = stWith .RUNNING
    ∧ (updateCampaign reqName (stWith .PAUSED)).1 = none := by
  refine ⟨?_, ?_, ?_⟩
  · exact (edit_locked_iff_running_or_completed (stWith .RUNNING) reqName).1.mpr
      (Or.inl (by decide))
  · exact (edit_locked_iff_running_or_completed (stWith .RUNNING) reqName).2.1
      (Or.inl (by decide))
  · exact (edit_locked_iff_running_or_completed (stWith .PAUSED) reqName).2.2
      (by decide)

/-! ### Worker counter and row-table lemmas -/

theorem processOne_sum (b : CampaignContact) (ok : Bool) (now : Nat) (st : CState) :
    (processOne b ok now st).campaign.sentCount
      + (processOne b ok now st).campaign.failedCount
      = st.campaign.sentCount + st.campaign.failedCount + 1 := by
  cases ok <;> simp [processOne] <;> omega

theorem processOne_deliveredCount (b : CampaignContact) (ok : Bool) (now : Nat)
    (st : CState) :
    (processOne b ok now st).campaign.deliveredCount
      = st.campaign.deliveredCount := by
  cases ok <;> rfl

theorem processOne_readCount (b : CampaignContact) (ok : Bool) (now : Nat)
    (st : CState) :
    (processOne b ok now st).campaign.readCount = st.campaign.readCount := by
  cases ok <;> rfl

theorem processOne_totalContacts (b : CampaignContact) (ok : Bool) (now : Nat)
    (st : CState) :
    (processOne b ok now st).campaign.totalContacts
      = st.campaign.totalContacts := by
  cases ok <;> rfl

theorem runBatch_sum (f : Nat → Bool) (now : Nat) :
    ∀ (l : List CampaignContact) (i : Nat) (st : CState),
    (runBatch f now i l st).campaign.sentCount
      + (runBatch f now i l st).campaign.failedCount
      = st.campaign.sentCount + st.campaign.failedCount + l.length := by
  intro l
  induction l with
  | nil => intro i st; simp [runBatch]
  | cons b bs ih =>
      intro i st
      rw [runBatch, ih, processOne_sum]
      simp
      omega

theorem runBatch_deliveredCount (f : Nat → Bool) (now : Nat) :
    ∀ (l : List CampaignContact) (i : Nat) (st : CState),
    (runBatch f now i l st).campaign.deliveredCount
      = st.campaign.deliveredCount := by
  intro l
  induction l with
  | nil => intro i st; rfl
  | cons b bs ih => intro i st; rw [runBatch, ih, processOne_deliveredCount]

theorem runBatch_readCount (f : Nat → Bool) (now : Nat) :
    ∀ (l : List CampaignContact) (i : Nat) (st : CState),
    (runBatch f now i l st).campaign.readCount = st.campaign.readCount := by
  intro l
  induction l with
  | nil => intro i st; rfl
  | cons b bs ih => intro i st; rw [runBatch, ih, processOne_readCount]

theorem runBatch_totalContacts (f : Nat → Bool) (now : Nat) :
    ∀ (l : List CampaignContact) (i : Nat) (st : CState),
    (runBatch f now i l st).campaign.totalContacts
      = st.campaign.totalContacts := by
  intro l
  induction l with
  | nil => intro i st; rfl
  | cons b bs ih => intro i st; rw [runBatch, ih, processOne_totalContacts]

theorem runBatch_rows (f : Nat → Bool) (now : Nat) :
    ∀ (l : List CampaignContact) (i : Nat) (st : CState),
    (runBatch f now i l st).rows = st.rows.map (updF f now i l) := by
  intro l
  induction l with
  | nil =>
      intro i st
      rw [show updF f now i [] = id from funext fun r => rfl, List.map_id]
      rfl
  | cons b bs ih =>
      intro i st
      rw [runBatch, ih]
      show (st.rows.map (step1 b (f i) now)).map (updF f now (i + 1) bs) = _
      rw [List.map_map]
      rfl

theorem updF_not_mem (f : Nat → Bool) (now : Nat) :
    ∀ (l : List CampaignContact) (i : Nat) (r : CampaignContact),
    r.contactId ∉ l.map CampaignContact.contactId → updF f now i l r = r := by
  intro l
  induction l with
  | nil => intro i r _; rfl
  | cons b bs ih =>
      intro i r hr
      rw [List.map_cons, List.mem_cons] at hr
      push_neg at hr
      rw [updF, step1, if_neg hr.1]
      exact ih (i + 1) r hr.2

theorem updF_allok (f : Nat → Bool) (now : Nat) (hok : ∀ j, f j = true) :
    ∀ (l : List CampaignContact) (i : Nat) (r : CampaignContact),
    (updF f now i l r).errorMessage = r.errorMessage
    ∧ ((updF f now i l r).status = r.status ∨ (updF f now i l r).status = .SENT) := by
  intro l
  induction l with
  | nil => intro i r; exact ⟨rfl, Or.inl rfl⟩
  | cons b bs ih =>
      intro i r
      rw [updF, hok i]
      by_cases hc : r.contactId = b.contactId
      · rw [step1, if_pos hc, if_pos rfl]
        obtain ⟨he, hs⟩ := ih (i + 1) { r with status := .SENT, sentAt := some now }
        refine ⟨he, ?_⟩
        rcases hs with hs | hs
        · right; exact hs
        · right; exact hs
      · rw [step1, if_neg hc]
        exact ih (i + 1) r

theorem runBatch_allok (f : Nat → Bool) (now : Nat) (hok : ∀ j, f j = true) :
    ∀ (l : List CampaignContact) (i : Nat) (st : CState),
    (runBatch f now i l st).campaign.failedCount = st.campaign.failedCount
    ∧ (runBatch f now i l st).messages.length = st.messages.length + l.length := by
  intro l
  induction l with
  | nil => intro i st; exact ⟨rfl, by simp [runBatch]⟩
  | cons b bs ih =>
      intro i st
      rw [runBatch]
      obtain ⟨h1, h2⟩ := ih (i + 1) (processOne b (f i) now st)
      rw [hok i] at h1 h2 ⊢
      refine ⟨?_, ?_⟩
      · rw [h1]; rfl
      · rw [h2]
        show (st.messages ++ [mkCampaignMessage st.templateName b.contactId]).length
            + bs.length = _
        simp
        omega

theorem procMsgs_sum (f : Nat → Bool) (now : Nat) (st : CState) :
    (processCampaignMessages f now st).campaign.sentCount
      + (processCampaignMessages f now st).campaign.failedCount
      = st.campaign.sentCount + st.campaign.failedCount
        + (st.rows.take 5).length := by
  simp only [processCampaignMessages]
  split
  · exact runBatch_sum f now _ 0 st
  · exact runBatch_sum f now _ 0 st

theorem procMsgs_deliveredCount (f : Nat → Bool) (now : Nat) (st : CState) :
    (processCampaignMessages f now st).campaign.deliveredCount
      = st.campaign.deliveredCount := by
  simp only [processCampaignMessages]
  split
  · exact runBatch_deliveredCount f now _ 0 st
  · exact runBatch_deliveredCount f now _ 0 st

theorem procMsgs_readCount (f : Nat → Bool) (now : Nat) (st : CState) :
    (processCampaignMessages f now st).campaign.readCount
      = st.campaign.readCount := by
  simp only [processCampaignMessages]
  split
  · exact runBatch_readCount f now _ 0 st
  · exact runBatch_readCount f now _ 0 st

theorem procMsgs_totalContacts (f : Nat → Bool) (now : Nat) (st : CState) :
    (processCampaignMessages f now st).campaign.totalContacts
      = st.campaign.totalContacts := by
  simp only [processCampaignMessages]
  split
  · exact runBatch_totalContacts f now _ 0 st
  · exact runBatch_totalContacts f now _ 0 st

theorem procMsgs_rows (f : Nat → Bool) (now : Nat) (st : CState) :
    (processCampaignMessages f now st).rows
      = st.rows.map (updF f now 0 (st.rows.take 5)) := by
  simp only [processCampaignMessages]
  split
  · exact runBatch_rows f now _ 0 st
  · exact runBatch_rows f now _ 0 st

theorem procMsgs_allok (f : Nat → Bool) (now : Nat) (st : CState)
    (hok : ∀ j, f j = true) :
    (processCampaignMessages f now st).campaign.failedCount
      = st.campaign.failedCount
    ∧ (processCampaignMessages f now st).messages.length
      = st.messages.length + (st.rows.take 5).length := by
  simp only [processCampaignMessages]
  split
  · exact runBatch_allok f now hok _ 0 st
  · exact runBatch_allok f now hok _ 0 st

/-! ### Operation-sequence lemmas -/

theorem applyOp_nonstart (op : Op) (st : CState) (h : isStart op = false) :
    (applyOp op st).campaign.sentCount = st.campaign.sentCount
    ∧ (applyOp op st).campaign.failedCount = st.campaign.failedCount
    ∧ (applyOp op st).campaign.deliveredCount = st.campaign.deliveredCount
    ∧ (applyOp op st).campaign.readCount = st.campaign.readCount
    ∧ (applyOp op st).campaign.totalContacts = st.campaign.totalContacts
    ∧ (applyOp op st).rows = st.rows := by
  cases op with
  | start f now => simp [isStart] at h
  | pause =>
      simp only [applyOp]
      unfold pauseCampaign
      split
      · exact ⟨rfl, rfl, rfl, rfl, rfl, rfl⟩
      · exact ⟨rfl, rfl, rfl, rfl, rfl, rfl⟩
  | update req =>
      simp only [applyOp]
      unfold updateCampaign
      split
      · exact ⟨rfl, rfl, rfl, rfl, rfl, rfl⟩
      · exact ⟨rfl, rfl, rfl, rfl, rfl, rfl⟩
  | ingest cb =>
      exact ⟨rfl, rfl, rfl, rfl, rfl, rfl⟩

theorem fresh_inv (st : CState) (h : Fresh st) : CountersInv st := by
  obtain ⟨h1, h2, h3, h4, h5⟩ := h
  exact ⟨by omega, by omega, by omega⟩

theorem fresh_create (ids : List Nat) (sched : Option Nat) (nm : String)
    (tmpl : Option String) : Fresh (createCampaign ids sched nm tmpl) := by
  refine ⟨rfl, rfl, rfl, rfl, ?_⟩
  simp [createCampaign]

theorem start_fresh_inv (f : Nat → Bool) (now : Nat) (st : CState)
    (h : Fresh st) : CountersInv ((startCampaign f now st).2) := by
  obtain ⟨h1, h2, h3, h4, h5⟩ := h
  unfold startCampaign
  split
  · exact fresh_inv st ⟨h1, h2, h3, h4, h5⟩
  · show CountersInv (processCampaignMessages f now (setRunning now st))
    have hsum := procMsgs_sum f now (setRunning now st)
    have hdel := procMsgs_deliveredCount f now (setRunning now st)
    have hread := procMsgs_readCount f now (setRunning now st)
    have htot := procMsgs_totalContacts f now (setRunning now st)
    have e1 : (setRunning now st).campaign.sentCount = st.campaign.sentCount := rfl
    have e2 : (setRunning now st).campaign.failedCount = st.campaign.failedCount := rfl
    have e3 : (setRunning now st).campaign.deliveredCount
        = st.campaign.deliveredCount := rfl
    have e4 : (setRunning now st).campaign.readCount = st.campaign.readCount := rfl
    have e5 : (setRunning now st).campaign.totalContacts
        = st.campaign.totalContacts := rfl
    have hlen : (((setRunning now st).rows.take 5).length) ≤ st.rows.length := by
      show ((st.rows.take 5).length) ≤ st.rows.length
      rw [List.length_take]
      exact min_le_right 5 st.rows.length
    unfold CountersInv
    refine ⟨?_, ?_, ?_⟩ <;> omega

theorem inv_nostart (ops : List Op) (h : countStarts ops = 0) :
    ∀ st : CState, CountersInv st → CountersInv (applyOps st ops) := by
  induction ops with
  | nil => intro st hi; exact hi
  | cons op rest ih =>
      intro st hi
      cases op with
      | start f now => simp [countStarts, isStart] at h
      | pause =>
          simp [countStarts, isStart] at h
          have hp := applyOp_nonstart Op.pause st rfl
          refine ih h (applyOp Op.pause st) ?_
          obtain ⟨e1, e2, e3, e4, e5, _⟩ := hp
          obtain ⟨i1, i2, i3⟩ := hi
          exact ⟨by omega, by omega, by omega⟩
      | update req =>
          simp [countStarts, isStart] at h
          have hp := applyOp_nonstart (Op.update req) st rfl
          refine ih h (applyOp (Op.update req) st) ?_
          obtain ⟨e1, e2, e3, e4, e5, _⟩ := hp
          obtain ⟨i1, i2, i3⟩ := hi
          exact ⟨by omega, by omega, by omega⟩
      | ingest cb =>
          simp [countStarts, isStart] at h
          have hp := applyOp_nonstart (Op.ingest cb) st rfl
          refine ih h (applyOp (Op.ingest cb) st) ?_
          obtain ⟨e1, e2, e3, e4, e5, _⟩ := hp
          obtain ⟨i1, i2, i3⟩ := hi
          exact ⟨by omega, by omega, by omega⟩

theorem fresh_nonstart (op : Op) (st : CState) (h : isStart op = false)
    (hf : Fresh st) : Fresh (applyOp op st) := by
  obtain ⟨e1, e2, e3, e4, e5, e6⟩ := applyOp_nonstart op st h
  obtain ⟨f1, f2, f3, f4, f5⟩ := hf
  refine ⟨by omega, by omega, by omega, by omega, ?_⟩
  rw [e6, e5, f5]

theorem inv_single_start (ops : List Op) (h : countStarts ops ≤ 1) :
    ∀ st : CState, Fresh st → CountersInv (applyOps st ops) := by
  induction ops with
  | nil => intro st hf; exact fresh_inv st hf
  | cons op rest ih =>
      intro st hf
      cases op with
      | start f now =>
          simp [countStarts, isStart] at h
          have h0 : countStarts rest = 0 := by omega
          show CountersInv (applyOps (applyOp (Op.start f now) st) rest)
          exact inv_nostart rest h0 _ (start_fresh_inv f now st hf)
      | pause =>
          simp [countStarts, isStart] at h
          exact ih h _ (fresh_nonstart Op.pause st rfl hf)
      | update req =>
          simp [countStarts, isStart] at h
          exact ih h _ (fresh_nonstart (Op.update req) st rfl hf)
      | ingest cb =>
          simp [countStarts, isStart] at h
          exact ih h _ (fresh_nonstart (Op.ingest cb) st rfl hf)

/-- C2 counterexample: the counter invariant is violated by a reachable
sequence of exposed operations. On a six-contact campaign, start (worker sends
the first five rows), pause, edit (resets the status to DRAFT), start again:
the worker re-processes the five already-SENT rows (it takes the first five
rows with no PENDING filter), driving `sentCount` to 10 while `totalContacts`
is 6, so `sentCount + failedCount ≤ totalContacts` fails. -/
theorem sent_failed_exceeds_total_after_restart :
    ¬ CountersInv
        (applyOps (createCampaign [0, 1, 2, 3, 4, 5] none "c" none)
          restartTrace) := by
  decide

/-- C2 amended: after any sequence of exposed operations (starts, pauses,
edits, status ingestions) containing at most one start, every campaign
satisfies `sentCount + failedCount ≤ totalContacts`,
`deliveredCount ≤ sentCount` and `readCount ≤ deliveredCount` (the latter two
because status ingestion never updates campaign counters, which therefore stay
0). Since every prefix of such a sequence is again such a sequence, the
invariant holds at every observation point; with a second start reached via
pause and edit it can fail (see the counterexample). -/
theorem counters_invariant_single_start (ids : List Nat) (sched : Option Nat)
    (nm : String) (tmpl : Option String) (ops : List Op)
    (h : countStarts ops ≤ 1) :
    CountersInv (applyOps (createCampaign ids sched nm tmpl) ops) :=
  inv_single_start ops h _ (fresh_create ids sched nm tmpl)

/-- Witness for C2 amended: a concrete start-then-pause run on a two-contact
campaign keeps the invariant. -/
theorem counters_invariant_single_start_witness :
    countStarts [Op.start allOk 1, Op.pause] ≤ 1
    ∧ CountersInv (applyOps (createCampaign [1, 2] none "w" none)
        [Op.start allOk 1, Op.pause]) :=
  ⟨by decide, counters_invariant_single_start [1, 2] none "w" none
    [Op.start allOk 1, Op.pause] (by decide)⟩

theorem create_startable (ids : List Nat) (sched : Option Nat) (nm : String)
    (tmpl : Option String) :
    ¬((createCampaign ids sched nm tmpl).campaign.status ≠ .DRAFT
      ∧ (createCampaign ids sched nm tmpl).campaign.status ≠ .SCHEDULED) := by
  cases sched <;> simp [createCampaign]

theorem start_create_eq (ids : List Nat) (sched : Option Nat) (nm : String)
    (tmpl : Option String) (f : Nat → Bool) (now : Nat) :
    startCampaign f now (createCampaign ids sched nm tmpl)
      = (none, processCampaignMessages f now
          (setRunning now (createCampaign ids sched nm tmpl))) := by
  unfold startCampaign
  rw [if_neg (create_startable ids sched nm tmpl)]

/-- C5 counterexample: the dispatch worker performs no quota check. With a
tenant whose `messages` quota check fails (limit 5, used 5), starting a
one-contact campaign still creates a message record (the gateway send path),
marks the contact row SENT with no error message, and leaves `failedCount` at
0 — contradicting the claim that the contact is marked FAILED with reason
`UsageLimitExceeded` and no gateway call made. -/
theorem worker_ignores_quota_cex :
    checkUsageLimit uAtLimit "messages" = .usageLimitExceeded "messages" 5 5
    ∧ (startCampaign allOk 9 (createCampaign [7] none "n" none)).2.rows.map
        (fun r => (r.status, r.errorMessage)) = [(CCStatus.SENT, none)]
    ∧ (startCampaign allOk 9 (createCampaign [7] none "n" none)).2.messages.length = 1
    ∧ (startCampaign allOk 9
        (createCampaign [7] none "n" none)).2.campaign.failedCount = 0 := by
  decide

/-- C5 amended: the dispatch worker never consults the quota ledger. Even for
a tenant whose `messages` quota check fails, starting a freshly created
campaign with an all-succeeding send path creates one message record per
processed contact (up to 5), leaves `failedCount` at 0, and marks no contact
row FAILED or with any error message — in particular no row ever carries
reason `UsageLimitExceeded`. -/
theorem worker_never_reports_usage_limit (u : User) (ids : List Nat)
    (sched : Option Nat) (nm : String) (tmpl : Option String) (f : Nat → Bool)
    (now : Nat) (L usedv : Int)
    (hq : checkUsageLimit u "messages" = .usageLimitExceeded "messages" L usedv)
    (hok : ∀ j, f j = true) :
    (startCampaign f now (createCampaign ids sched nm tmpl)).1 = none
    ∧ (startCampaign f now
        (createCampaign ids sched nm tmpl)).2.campaign.failedCount = 0
    ∧ (startCampaign f now (createCampaign ids sched nm tmpl)).2.messages.length
        = min 5 ids.length
    ∧ ∀ r ∈ (startCampaign f now (createCampaign ids sched nm tmpl)).2.rows,
        r.status ≠ .FAILED ∧ r.errorMessage = none := by
  rw [start_create_eq]
  have hpa := procMsgs_allok f now
    (setRunning now (createCampaign ids sched nm tmpl)) hok
  refine ⟨rfl, ?_, ?_, ?_⟩
  · rw [hpa.1]; rfl
  · rw [hpa.2]
    show ([] : List Message).length + ((ids.map mkRow).take 5).length
        = min 5 ids.length
    rw [List.length_nil, Nat.zero_add, List.length_take, List.length_map]
  · intro r hr
    rw [procMsgs_rows, List.mem_map] at hr
    obtain ⟨r0, hr0, rfl⟩ := hr
    have hr0m : r0 ∈ ids.map mkRow := hr0
    rw [List.mem_map] at hr0m
    obtain ⟨cid, _, rfl⟩ := hr0m
    obtain ⟨he, hs⟩ := updF_allok f now hok
      ((setRunning now (createCampaign ids sched nm tmpl)).rows.take 5) 0
      (mkRow cid)
    refine ⟨?_, ?_⟩
    · rcases hs with hs | hs
      · rw [hs]; simp [mkRow]
      · rw [hs]; decide
    · rw [he]; rfl

/-- Witness for C5 amended: the over-quota tenant and the one-contact
campaign. -/
theorem worker_never_reports_usage_limit_witness :
    (startCampaign allOk 9 (createCampaign [7] none "n" none)).1 = none
    ∧ (startCampaign allOk 9
        (createCampaign [7] none "n" none)).2.campaign.failedCount = 0
    ∧ (startCampaign allOk 9
        (createCampaign [7] none "n" none)).2.messages.length = 1 := by
  have h := worker_never_reports_usage_limit uAtLimit [7] none "n" none allOk 9
    5 5 (by decide) (fun j => rfl)
  exact ⟨h.1, h.2.1, h.2.2.1⟩

/-- C9: one dispatch-worker invocation touches only the first five
campaign-contact rows (`slice(0, 5)`), so after a single start of a freshly
created campaign with more than five (distinct) contacts, the rows beyond the
fifth are exactly as created — still PENDING — and the campaign is left
RUNNING, not COMPLETED. -/
theorem worker_batch_limit_leaves_pending (ids : List Nat) (sched : Option Nat)
    (nm : String) (tmpl : Option String) (f : Nat → Bool) (now : Nat)
    (hnd : ids.Nodup) (hlen : 5 < ids.length) :
    (startCampaign f now (createCampaign ids sched nm tmpl)).1 = none
    ∧ (startCampaign f now (createCampaign ids sched nm tmpl)).2.rows.drop 5
        = (createCampaign ids sched nm tmpl).rows.drop 5
    ∧ (∀ r ∈ (startCampaign f now
          (createCampaign ids sched nm tmpl)).2.rows.drop 5,
        r.status = .PENDING)
    ∧ (startCampaign f now
        (createCampaign ids sched nm tmpl)).2.campaign.status = .RUNNING := by
  rw [start_create_eq]
  have hdisj : ∀ cid ∈ ids.drop 5, cid ∉ ids.take 5 := by
    intro cid hc ht
    have hnd2 := hnd
    rw [← List.take_append_drop 5 ids, List.nodup_append] at hnd2
    exact hnd2.2.2 ht hc
  have hdropeq : (setRunning now (createCampaign ids sched nm tmpl)).rows.drop 5
      = (ids.drop 5).map mkRow := by
    show (ids.map mkRow).drop 5 = (ids.drop 5).map mkRow
    rw [List.map_drop]
  have hbatchids : ((setRunning now
        (createCampaign ids sched nm tmpl)).rows.take 5).map
        CampaignContact.contactId = ids.take 5 := by
    show ((ids.map mkRow).take 5).map CampaignContact.contactId = ids.take 5
    rw [← List.map_take, List.map_map]
    calc (ids.take 5).map (CampaignContact.contactId ∘ mkRow)
        = (ids.take 5).map id := List.map_congr_left (fun a _ => rfl)
      _ = ids.take 5 := List.map_id _
  have K : ∀ r ∈ (setRunning now (createCampaign ids sched nm tmpl)).rows.drop 5,
      updF f now 0
        ((setRunning now (createCampaign ids sched nm tmpl)).rows.take 5) r
        = r := by
    intro r hr
    rw [hdropeq, List.mem_map] at hr
    obtain ⟨cid, hcid, rfl⟩ := hr
    apply updF_not_mem
    rw [hbatchids]
    show cid ∉ ids.take 5
    exact hdisj cid hcid
  have hrows : (processCampaignMessages f now
        (setRunning now (createCampaign ids sched nm tmpl))).rows.drop 5
      = (setRunning now (createCampaign ids sched nm tmpl)).rows.drop 5 := by
    rw [procMsgs_rows, ← List.map_drop]
    calc ((setRunning now (createCampaign ids sched nm tmpl)).rows.drop 5).map
          (updF f now 0
            ((setRunning now (createCampaign ids sched nm tmpl)).rows.take 5))
        = ((setRunning now
            (createCampaign ids sched nm tmpl)).rows.drop 5).map id :=
          List.map_congr_left K
      _ = (setRunning now (createCampaign ids sched nm tmpl)).rows.drop 5 :=
          List.map_id _
  have hne : (setRunning now (createCampaign ids sched nm tmpl)).rows.drop 5
      ≠ [] := by
    intro hnil
    have hl : ((setRunning now
        (createCampaign ids sched nm tmpl)).rows.drop 5).length
        = ids.length - 5 := by
      show ((ids.map mkRow).drop 5).length = ids.length - 5
      rw [List.length_drop, List.length_map]
    rw [hnil] at hl
    simp at hl
    omega
  have hpend : ¬((runBatch f now 0
        ((setRunning now (createCampaign ids sched nm tmpl)).rows.take 5)
        (setRunning now (createCampaign ids sched nm tmpl))).rows.countP
        (fun r => r.status == CCStatus.PENDING) = 0) := by
    intro h0
    rw [runBatch_rows] at h0
    obtain ⟨r, hrmem⟩ := List.exists_mem_of_ne_nil _ hne
    have hK := K r hrmem
    have hrin : r ∈ (setRunning now (createCampaign ids sched nm tmpl)).rows :=
      List.drop_subset 5 _ hrmem
    have hmap := List.mem_map_of_mem
      (updF f now 0
        ((setRunning now (createCampaign ids sched nm tmpl)).rows.take 5)) hrin
    rw [hK] at hmap
    have hpd : r.status = .PENDING := by
      rw [hdropeq, List.mem_map] at hrmem
      obtain ⟨cid, _, rfl⟩ := hrmem
      rfl
    have hcontra := List.countP_eq_zero.mp h0 r hmap
    rw [hpd] at hcontra
    exact hcontra rfl
  refine ⟨rfl, hrows, ?_, ?_⟩
  · intro r hr
    rw [hrows, hdropeq, List.mem_map] at hr
    obtain ⟨cid, _, rfl⟩ := hr
    rfl
  · show (processCampaignMessages f now
        (setRunning now (createCampaign ids sched nm tmpl))).campaign.status
        = .RUNNING
    simp only [processCampaignMessages]
    rw [if_neg hpend, runBatch_campaign_status]
    rfl

/-- Witness for C9 at a six-contact campaign: start succeeds, the sixth row
is untouched, the campaign stays RUNNING. -/
theorem worker_batch_limit_leaves_pending_witness :
    (startCampaign allOk 3 (createCampaign [0, 1, 2, 3, 4, 5] none "c" none)).1
        = none
    ∧ (startCampaign allOk 3
        (createCampaign [0, 1, 2, 3, 4, 5] none "c" none)).2.rows.drop 5
        = (createCampaign [0, 1, 2, 3, 4, 5] none "c" none).rows.drop 5
    ∧ (startCampaign allOk 3
        (createCampaign [0, 1, 2, 3, 4, 5] none "c" none)).2.campaign.status
        = .RUNNING := by
  have h := worker_batch_limit_leaves_pending [0, 1, 2, 3, 4, 5] none "c" none
    allOk 3 (by decide) (by decide)
  exact ⟨h.1, h.2.1, h.2.2.2⟩
